import Mathlib

/-!
Shallow embedding of the connection-lifecycle and error-normalization core of
the `azure-typespec-js` Widget service.

Embedded source files:
* `src/unnamed/part_000` — key-based `CosmosClientManager` (namespace `Cosmos`)
  together with the table-driven `buildError` normalizer shared verbatim with
  `src/unnamed/part_001`.
* `src/unnamed/part_001` — `DefaultAzureCredential` variant of the manager
  (namespace `CosmosAad`); its `buildError` is textually identical to the one
  in `part_000`, so `Cosmos.buildError` models both.
* `src/tsp-output/server/src/azure/cosmos-client.ts` — the manager and
  table-free `buildError` that `widgets-cosmos.ts` imports (namespace
  `CosmosTs`): it is the only variant exporting `WidgetDocument`, a
  one-argument synchronous `initialize`, and the two-argument
  `getContainer(databaseId, containerId)` matching the `WidgetsCosmosImpl`
  call sites.
* `src/tsp-output/server/src/controllers/widgets-cosmos.ts` — the
  `WidgetsCosmosImpl` handlers (namespace `Impl`, wired to `CosmosTs`) and
  the second controller class `WidgetsCosmosController` (namespace
  `CtrlV2`, wired to the `part_001` manager whose config shape and
  four-argument `getContainer` its constructor and `ensureContainer` match
  exactly).
* `src/unnamed/part_002` — the third controller variant (namespace `CtrlV1`).

Modelling conventions: JavaScript failure values that reach `buildError` are
either `null`/`undefined` (modelled `none`) or objects with the optional
fields the code actually probes (`name`, `code`, `statusCode`,
`subStatusCode`, `message`), each modelled as an `Option` of its natural
type; JS truthiness of those fields (`0` and `""` are falsy) is modelled
explicitly. Store round trips are parameterised by a `StoreOracle` giving
each `createIfNotExists` call's outcome, and ghost log fields record the
round trips that were issued. `async` control flow is sequentialised; the
one cooperative-scheduling question (claim about concurrent `initialize`)
gets an explicit interleaving machine (`InitMachine`).
-/

/-- Two-valued widget colour from the API contract ("red" | "blue"). -/
inductive Color : Type
  | red
  | blue
deriving DecidableEq

/-- Normalized error shape `{code, message}` (`WidgetError` in the source). -/
structure WidgetError : Type where
  code : Int
  message : String
deriving DecidableEq

/-- Result of a fallible operation: the source either returns/throws. -/
inductive Res (ε α : Type) : Type
  | ok (a : α)
  | err (e : ε)
deriving DecidableEq

/-- Model of a JavaScript failure value as probed by `buildError`: an object
carrying the optional fields the code inspects. `none` in a field means the
field is absent (`undefined`). -/
structure JSError : Type where
  name : Option String
  code : Option Int
  statusCode : Option Int
  subStatusCode : Option Int
  message : Option String
deriving DecidableEq

/-- JS truthiness of an optional number (`undefined` and `0` are falsy). -/
def jsTruthyInt (o : Option Int) : Bool :=
  match o with
  | none => false
  | some n => n != 0

/-- JS `a || b` for an optional string `a` (`undefined` and `""` are falsy). -/
def jsOrStr (a : Option String) (b : String) : String :=
  match a with
  | some s => if s = "" then b else s
  | none => b

/-- Shorthand for a failure object exposing only a numeric `statusCode`,
as thrown at handler call sites such as `buildError({statusCode:409}, ...)`. -/
def jsStatus (sc : Int) : JSError :=
  { name := none, code := none, statusCode := some sc, subStatusCode := none, message := none }

/-- Model of a thrown JS value inside the manager: either a plain
`new Error(message)` (never normalized) or a `WidgetError` produced by
`buildError`. -/
inductive Thrown : Type
  | raw (message : String)
  | normalized (e : WidgetError)
deriving DecidableEq

/-- View of a `Thrown` value as the JS object a downstream `catch` block
passes back into `buildError`: an `Error` has `name` and `message`; a
`WidgetError` has numeric `code` and a `message`. -/
def thrownAsJs : Thrown → JSError
  | .raw m => { name := some "Error", code := none, statusCode := none, subStatusCode := none, message := some m }
  | .normalized w => { name := none, code := some w.code, statusCode := none, subStatusCode := none, message := some w.message }

namespace Cosmos

/-- Lookup table `errorMap` of `buildError` in `src/unnamed/part_000`
(lines 182-189), identical in `part_001`. -/
def errorMap (c : Int) : Option String :=
  if c = 403 then some "Forbidden: Insufficient permissions to access CosmosDB resource"
  else if c = 404 then some "Not found: The requested resource doesn't exist"
  else if c = 409 then some "Conflict: Resource already exists or version conflict"
  else if c = 412 then some "Precondition failed: Operation cannot be performed due to current state"
  else if c = 429 then some "Too many requests: Rate limit exceeded"
  else if c = 503 then some "Service unavailable: CosmosDB is currently unavailable"
  else none

/-- Vendor-code mapping of `buildError`'s `else if (typeof cosmosError.code
=== 'number')` branch (`part_000` lines 245-255): 1001→404, 1008→408,
1009→409, 1029→429, anything else passes through. -/
def mapVendorCode (c : Int) : Int :=
  if c = 1001 then 404
  else if c = 1008 then 408
  else if c = 1009 then 409
  else if c = 1029 then 429
  else c

/-- Synthesized message of `buildError`'s `statusCode` branch when the code is
not in `errorMap` (`part_000` lines 227-240): `"Cosmos DB error:
statusCode=<n>[, subStatusCode=<m>][ - <original message>]"`; the original
message is appended only when it is a string that is nonempty after trim. -/
def detailedMessage (sc : Int) (sub : Option Int) (orig : Option String) : String :=
  let base := s!"Cosmos DB error: statusCode={sc}"
  let base :=
    match sub with
    | some m => base ++ s!", subStatusCode={m}"
    | none => base
  match orig with
  | some m => if m.trim = "" then base else base ++ s!" - {m}"
  | none => base

/-- Message of the `typeof cosmosError.statusCode === 'number'` branch
(`part_000` lines 219-240): table message when mapped, else the synthesized
detailed message. -/
def statusMessage (sc : Int) (sub : Option Int) (orig : Option String) : String :=
  match errorMap sc with
  | some m => m
  | none => detailedMessage sc sub orig

/-- The error normalizer `buildError` of `src/unnamed/part_000` lines 176-263
(textually identical in `src/unnamed/part_001` lines 205-292). Branches in
source order: null/undefined; truthy `code` together with truthy
`statusCode`; `AbortError`/`TimeoutError` name; numeric `statusCode`;
numeric vendor `code`; fallback. -/
def buildError (error : Option JSError) (defaultMessage : String) : WidgetError :=
  match error with
  | none => { code := 500, message := defaultMessage }
  | some err =>
    if jsTruthyInt err.code && jsTruthyInt err.statusCode then
      let c : Int := err.statusCode.getD 0
      { code := c,
        message :=
          match errorMap c with
          | some m => m
          | none => jsOrStr err.message defaultMessage }
    else if err.name == some "AbortError" || err.name == some "TimeoutError" then
      { code := 504, message := "Gateway timeout: CosmosDB operation timed out" }
    else
      match err.statusCode with
      | some sc => { code := sc, message := statusMessage sc err.subStatusCode err.message }
      | none =>
        match err.code with
        | some c0 =>
          let c := mapVendorCode c0
          { code := c, message := jsOrStr err.message ((errorMap c).getD defaultMessage) }
        | none => { code := 500, message := defaultMessage }

/-- Configuration of `src/unnamed/part_000` (`CosmosConfig`, lines 6-10):
endpoint, shared key, database id. Absent settings are modelled as `""`,
matching the JS falsiness checks in `validateConfig`. -/
structure Config : Type where
  endpoint : String
  key : String
  databaseId : String
deriving DecidableEq

/-- Opened database handle; its identity is the id it was resolved for. -/
structure DbHandle : Type where
  id : String
deriving DecidableEq

/-- Opened container handle; its identity records the coordinates and
partition-key path passed to the `createIfNotExists` call that produced it. -/
structure CtHandle : Type where
  dbId : String
  ctId : String
  partitionKeyPath : String
deriving DecidableEq

/-- Outcomes of the store's `createIfNotExists` round trips, one entry per
possible request; the manager is deterministic relative to this oracle. -/
structure StoreOracle : Type where
  dbCreate : String → Res JSError Unit
  ctCreate : String → String → String → Res JSError Unit

/-- State of a `CosmosClientManager` instance (`part_000` lines 15-25):
client reference, in-progress flag, stored config, the two handle caches.
`constructCount`, `dbCreateLog` and `ctCreateLog` are ghost fields counting
`new CosmosClient(...)` constructions and the store round trips issued. -/
structure MgrState : Type where
  client : Bool
  isInitializing : Bool
  config : Option Config
  databaseCache : List (String × DbHandle)
  containerCache : List (String × CtHandle)
  constructCount : Nat
  dbCreateLog : List String
  ctCreateLog : List (String × String × String)
deriving DecidableEq

/-- Validation of `part_000` `validateConfig` (lines 83-87): endpoint, key
and databaseId must be JS-truthy; returns the message of the `Error` thrown
for the first falsy field. -/
def validateConfig (cfg : Config) : Option String :=
  if cfg.endpoint = "" then some "CosmosDB endpoint is required"
  else if cfg.key = "" then some "CosmosDB key is required"
  else if cfg.databaseId = "" then some "CosmosDB databaseId is required"
  else none

/-- Sequential model of `part_000` `initialize` (lines 41-77). Returns `none`
for the one case a single sequential caller cannot get past (the
busy-wait loop on `isInitializing` with nobody left to clear the flag);
otherwise the updated state and the outcome. A validation failure is caught
by the `catch` block, passed through `buildError` and thrown as the
resulting normalized `WidgetError`; `finally` clears `isInitializing`. -/
def initializeClient (s : MgrState) (cfg : Config) : Option (MgrState × Res Thrown Unit) :=
  if s.client then some (s, .ok ())
  else if s.isInitializing then none
  else
    match validateConfig cfg with
    | some msg =>
      some ({ s with isInitializing := false },
        .err (.normalized (buildError
          (some { name := some "Error", code := none, statusCode := none,
                  subStatusCode := none, message := some msg })
          "Failed to initialize CosmosDB client")))
    | none =>
      some ({ s with
                config := some cfg
                client := true
                constructCount := s.constructCount + 1
                isInitializing := false },
        .ok ())

/-- Effective database id `databaseId || this.config?.databaseId` as a JS
value: the argument if truthy, else the configured id (possibly `""`), else
`undefined` (`none`). -/
def effectiveDbId (s : MgrState) (databaseId : Option String) : Option String :=
  match databaseId with
  | some d => if d = "" then s.config.map (fun c => c.databaseId) else some d
  | none => s.config.map (fun c => c.databaseId)

/-- String interpolation of the effective database id inside the container
cache key: JS renders `undefined` as `"undefined"`. -/
def effectiveDbIdDisplay (s : MgrState) (databaseId : Option String) : String :=
  match effectiveDbId s databaseId with
  | some d => d
  | none => "undefined"

/-- Model of `part_000` `getDatabase` (lines 94-116): not-initialized check
(a plain `Error`, thrown raw), effective id resolution, cache lookup,
`createIfNotExists` round trip; a store failure is normalized through
`buildError` and thrown, leaving the caches untouched. -/
def getDatabase (ora : StoreOracle) (s : MgrState) (databaseId : Option String) :
    MgrState × Res Thrown DbHandle :=
  if !s.client then
    (s, .err (.raw "CosmosDB client is not initialized. Call initialize() first"))
  else
    match effectiveDbId s databaseId with
    | none => (s, .err (.raw "Database ID is required"))
    | some dbId =>
      if dbId = "" then (s, .err (.raw "Database ID is required"))
      else
        match s.databaseCache.lookup dbId with
        | some h => (s, .ok h)
        | none =>
          let s1 := { s with dbCreateLog := s.dbCreateLog ++ [dbId] }
          match ora.dbCreate dbId with
          | .ok _ =>
            let h : DbHandle := { id := dbId }
            ({ s1 with databaseCache := (dbId, h) :: s1.databaseCache }, .ok h)
          | .err e =>
            (s1, .err (.normalized (buildError (some e) s!"Failed to get or create database {dbId}")))

/-- Model of `part_000` `getContainer` (lines 125-149): cache key is the
string `` `${databaseId || this.config?.databaseId}-${containerId}` ``;
cache hit returns without touching the store; otherwise the database is
resolved via `getDatabase` and the container `createIfNotExists` issued; any
failure in the `try` block is passed through `buildError` with default
message naming the container id and thrown. -/
def getContainer (ora : StoreOracle) (s : MgrState) (containerId : String)
    (databaseId : Option String) (partitionKey : String) :
    MgrState × Res Thrown CtHandle :=
  match s.containerCache.lookup (effectiveDbIdDisplay s databaseId ++ "-" ++ containerId) with
  | some h => (s, .ok h)
  | none =>
    match getDatabase ora s databaseId with
    | (s1, .err t) =>
      (s1, .err (.normalized (buildError (some (thrownAsJs t))
        s!"Failed to get or create container {containerId}")))
    | (s1, .ok db) =>
      match ora.ctCreate db.id containerId partitionKey with
      | .ok _ =>
        ({ s1 with
             containerCache :=
               (effectiveDbIdDisplay s databaseId ++ "-" ++ containerId,
                 { dbId := db.id, ctId := containerId, partitionKeyPath := partitionKey }) ::
                 s1.containerCache
             ctCreateLog := s1.ctCreateLog ++ [(db.id, containerId, partitionKey)] },
          .ok { dbId := db.id, ctId := containerId, partitionKeyPath := partitionKey })
      | .err e =>
        ({ s1 with ctCreateLog := s1.ctCreateLog ++ [(db.id, containerId, partitionKey)] },
          .err (.normalized (buildError (some e)
            s!"Failed to get or create container {containerId}")))

/-- Model of `part_000` `dispose` (lines 154-169): when a client is held,
clear both caches and release the client; otherwise do nothing. It never
throws. -/
def dispose (s : MgrState) : MgrState :=
  if s.client then
    { s with databaseCache := [], containerCache := [], client := false }
  else s

end Cosmos

namespace CosmosAad

/-- Configuration of `src/unnamed/part_001` (`CosmosConfig`, lines 7-12):
endpoint, database id, container id and (misspelt in source) `partionKey`;
credential material comes from `DefaultAzureCredential`, not the config. -/
structure Config : Type where
  endpoint : String
  databaseId : String
  containerId : String
  partionKey : String
deriving DecidableEq

/-- Manager state for the `part_001` variant (same fields as `Cosmos.MgrState`
up to the config type; ghost fields as there). -/
structure MgrState : Type where
  client : Bool
  isInitializing : Bool
  config : Option Config
  databaseCache : List (String × Cosmos.DbHandle)
  containerCache : List (String × Cosmos.CtHandle)
  constructCount : Nat
deriving DecidableEq

/-- Validation of `part_001` `validateConfig` (lines 87-91): endpoint,
databaseId and containerId must be JS-truthy; `partionKey` is never
checked. -/
def validateConfig (cfg : Config) : Option String :=
  if cfg.endpoint = "" then some "CosmosDB endpoint is required"
  else if cfg.databaseId = "" then some "CosmosDB databaseId is required"
  else if cfg.containerId = "" then some "CosmosDB containerId is required"
  else none

/-- Sequential model of `part_001` `initialize` (lines 43-81), structured
exactly as `Cosmos.initialize`: already-initialized no-op; `none` for the
unservable sequential busy-wait; validation failure caught and normalized
through `buildError`; success constructs the client once. -/
def initializeClient (s : MgrState) (cfg : Config) : Option (MgrState × Res Thrown Unit) :=
  if s.client then some (s, .ok ())
  else if s.isInitializing then none
  else
    match validateConfig cfg with
    | some msg =>
      some ({ s with isInitializing := false },
        .err (.normalized (Cosmos.buildError
          (some { name := some "Error", code := none, statusCode := none,
                  subStatusCode := none, message := some msg })
          "Failed to initialize CosmosDB client")))
    | none =>
      some ({ s with
                config := some cfg
                client := true
                constructCount := s.constructCount + 1
                isInitializing := false },
        .ok ())

/-- Effective database id `databaseId || this.config?.databaseId` of
`part_001` `getDatabase` (line 106), with JS falsiness of `""`. -/
def effDbId (s : MgrState) (databaseId : Option String) : Option String :=
  match databaseId with
  | some d => if d = "" then s.config.map (fun c => c.databaseId) else some d
  | none => s.config.map (fun c => c.databaseId)

/-- Model of `part_001` `getDatabase` (lines 98-123): not-initialized check
(plain `Error`, thrown raw), effective id resolution, cache lookup,
`createIfNotExists`; a store failure is normalized through `buildError` and
thrown, leaving the caches untouched. -/
def getDatabase (ora : Cosmos.StoreOracle) (s : MgrState) (databaseId : Option String) :
    MgrState × Res Thrown Cosmos.DbHandle :=
  if !s.client then
    (s, .err (.raw "CosmosDB client is not initialized. Call initialize() first"))
  else
    match effDbId s databaseId with
    | none => (s, .err (.raw "Database ID is required"))
    | some dbId =>
      if dbId = "" then (s, .err (.raw "Database ID is required"))
      else
        match s.databaseCache.lookup dbId with
        | some h => (s, .ok h)
        | none =>
          match ora.dbCreate dbId with
          | .ok _ =>
            ({ s with databaseCache := (dbId, { id := dbId }) :: s.databaseCache },
              .ok { id := dbId })
          | .err e =>
            (s, .err (.normalized (Cosmos.buildError (some e)
              s!"Failed to get or create database {dbId}")))

/-- Model of `part_001` `getContainer` (lines 132-178): takes
`(endpoint, databaseId, containerId, partitionKey)`; throws raw `Error`s for
an empty databaseId/containerId; cache key is
`` `${databaseId || this.config?.databaseId}-${containerId}` `` (the
databaseId argument, as it was just validated truthy); on a miss the
database is resolved and the container created; any failure in the `try` is
passed through `buildError` with the default message `"getContainer Failed
to get or create container <containerId>"` and thrown. The `endpoint`
argument is only logged by the source and unused. -/
def getContainer (ora : Cosmos.StoreOracle) (s : MgrState)
    (endpoint databaseId containerId partitionKey : String) :
    MgrState × Res Thrown Cosmos.CtHandle :=
  if databaseId = "" then (s, .err (.raw "databaseId is required"))
  else if containerId = "" then (s, .err (.raw "containerId is required"))
  else
    match s.containerCache.lookup (databaseId ++ "-" ++ containerId) with
    | some h => (s, .ok h)
    | none =>
      match getDatabase ora s (some databaseId) with
      | (s1, .err t) =>
        (s1, .err (.normalized (Cosmos.buildError (some (thrownAsJs t))
          s!"getContainer Failed to get or create container {containerId}")))
      | (s1, .ok db) =>
        match ora.ctCreate db.id containerId partitionKey with
        | .ok _ =>
          ({ s1 with
               containerCache :=
                 (databaseId ++ "-" ++ containerId,
                   { dbId := db.id, ctId := containerId, partitionKeyPath := partitionKey }) ::
                   s1.containerCache },
            .ok { dbId := db.id, ctId := containerId, partitionKeyPath := partitionKey })
        | .err e =>
          (s1, .err (.normalized (Cosmos.buildError (some e)
            s!"getContainer Failed to get or create container {containerId}")))

/-- Model of `part_001` `dispose` (lines 183-198, textually identical to
`part_000` lines 154-169): when a client is held, clear both caches and
release the client; otherwise do nothing. It never throws. -/
def dispose (s : MgrState) : MgrState :=
  if s.client then
    { s with databaseCache := [], containerCache := [], client := false }
  else s

end CosmosAad

namespace InitMachine

/-!
Interleaving model of N concurrent callers of `initialize`
(`src/unnamed/part_000` lines 41-77) under the cooperative (non-preemptive)
scheduler of the JS event loop. The body of `initialize` contains no `await`
between the `this.client` / `this.isInitializing` checks and the
(synchronous) `new CosmosClient(...)` assignment, so a caller that enters
the try block runs it to completion in one scheduling slot; the only
suspension point is the `setTimeout` poll inside the wait loop. A task is
therefore: `pending` (call not yet started), `waiting` (suspended in the
poll loop), or `done ok` (returned; `ok` records whether it succeeded or
the caught validation error was thrown).
-/

/-- Status of one concurrent `initialize` caller. -/
inductive TaskSt : Type
  | pending
  | waiting
  | done (ok : Bool)
deriving DecidableEq

/-- Shared state visible to the concurrent callers: the client reference,
the `isInitializing` flag, a ghost count of `new CosmosClient` constructions
and the status of every caller. -/
structure CState : Type where
  clientExists : Bool
  initializing : Bool
  constructCount : Nat
  tasks : List TaskSt
deriving DecidableEq

/-- One scheduling slot given to caller `i`: executes `initialize` up to its
next suspension point, with `valid` saying whether `validateConfig` passes
for the shared configuration. Mirrors the branch order of the source:
already-initialized early return, in-progress wait, then the guarded
construction with `finally` clearing the flag. -/
def stepTask (valid : Bool) (s : CState) (i : Nat) : CState :=
  match s.tasks[i]? with
  | none => s
  | some TaskSt.pending =>
    if s.clientExists then { s with tasks := s.tasks.set i (TaskSt.done true) }
    else if s.initializing then { s with tasks := s.tasks.set i TaskSt.waiting }
    else if valid then
      { clientExists := true
        initializing := false
        constructCount := s.constructCount + 1
        tasks := s.tasks.set i (TaskSt.done true) }
    else { s with tasks := s.tasks.set i (TaskSt.done false) }
  | some TaskSt.waiting =>
    if s.initializing then s else { s with tasks := s.tasks.set i (TaskSt.done true) }
  | some (TaskSt.done _) => s

/-- Run a whole schedule (list of caller indices, in scheduling order). -/
def run (valid : Bool) (s : CState) (sched : List Nat) : CState :=
  sched.foldl (stepTask valid) s

/-- Initial state for `n` concurrent callers of a fresh manager. -/
def initial (n : Nat) : CState :=
  { clientExists := false
    initializing := false
    constructCount := 0
    tasks := List.replicate n TaskSt.pending }

/-- Reachability invariant for valid configurations: the flag is clear
between slots, the construction count matches the client's existence, no
task is ever parked `waiting`, and nothing finishes before the client
exists. -/
def Inv (s : CState) : Prop :=
  s.initializing = false ∧
  (s.clientExists = true → s.constructCount = 1) ∧
  (s.clientExists = false → s.constructCount = 0) ∧
  (∀ t ∈ s.tasks, t = TaskSt.pending ∨ t = TaskSt.done true) ∧
  (s.clientExists = false → ∀ t ∈ s.tasks, t = TaskSt.pending)

end InitMachine

/-- A document as persisted by the store: the three widget fields plus the
store-managed metadata Cosmos DB always attaches (`_ts` timestamp and
`_etag` concurrency token, modelled as `ts`/`etag`). -/
structure StoredDoc : Type where
  id : String
  weight : Int
  color : Color
  ts : Int
  etag : String
deriving DecidableEq

/-- A JS object in the widget response position: the three public fields
plus the optional metadata keys. `ts = none` / `etag = none` mean those keys
are absent, so a response has exactly the keys `id`, `weight`, `color` iff
both are `none`. -/
structure RWidget : Type where
  id : String
  weight : Int
  color : Color
  ts : Option Int
  etag : Option String
deriving DecidableEq

/-- The store hands documents to the application with their metadata keys
present. -/
def storedToObj (d : StoredDoc) : RWidget :=
  { id := d.id, weight := d.weight, color := d.color, ts := some d.ts, etag := some d.etag }

/-- Response has exactly the public keys `id`, `weight`, `color`. -/
def exactPublicKeys (r : RWidget) : Bool :=
  r.ts = none && r.etag = none

/-- Widget store state: documents in store order, as returned by
`SELECT * FROM c`. -/
abbrev Store : Type := List StoredDoc

/-- Metadata the store assigns to a newly created document (deterministic
stand-in for the server-side `_ts`/`_etag`). -/
def freshMeta (store : Store) : Int × String :=
  (Int.ofNat store.length, s!"etag-{store.length}")

namespace CosmosTs

/-!
Model of `src/tsp-output/server/src/azure/cosmos-client.ts` — the module
`widgets-cosmos.ts` actually imports (it is the only variant exporting
`WidgetDocument`, a one-argument synchronous `initialize`, and the
two-argument `getContainer(databaseId, containerId)` that matches the
`WidgetsCosmosImpl` call sites). Its `buildError` (lines 102-155) has no
lookup table: a numeric `statusCode` always yields the synthesized
`"Cosmos DB error: statusCode=..."` message. Its manager (lines 19-96) has
no `dispose` method, configures no partition key, and wraps resolution
failures in plain `Error`s rather than normalized errors.
-/

/-- Outcomes of this manager's `createIfNotExists` round trips; container
creation takes no partition-key path in this variant (lines 86). -/
structure StoreOracle : Type where
  dbCreate : String → Res JSError Unit
  ctCreate : String → String → Res JSError Unit

/-- State of the `cosmos-client.ts` `CosmosClientManager` (lines 19-25):
client reference and the two handle caches (`databases`, `containers`);
no config and no `isInitializing` flag exist in this class.
`dbCreateLog`/`ctCreateLog` are ghost logs of the round trips issued. -/
structure MgrState : Type where
  client : Bool
  databases : List (String × Cosmos.DbHandle)
  containers : List (String × Cosmos.CtHandle)
  dbCreateLog : List String
  ctCreateLog : List (String × String)
deriving DecidableEq

/-- The code-mapping block of `cosmos-client.ts` `buildError` (lines
140-151), applied to whichever numeric code was extracted: codes already in
{404, 408, 409, 412, 429} are kept, vendor codes 1001/1008/1009/1029 map to
404/408/409/429, anything else passes through. -/
def mapCode (c : Int) : Int :=
  if c = 404 ∨ c = 408 ∨ c = 409 ∨ c = 412 ∨ c = 429 then c
  else if c = 1001 then 404
  else if c = 1008 then 408
  else if c = 1009 then 409
  else if c = 1029 then 429
  else c

/-- The error normalizer `buildError` of `cosmos-client.ts` lines 102-155.
No lookup table and no abort/timeout branch: an object with a numeric
`statusCode` always gets the synthesized detailed message (built exactly as
in `Cosmos.detailedMessage`); an object with only a numeric `code` keeps its
own trim-nonempty message, else the default; everything else is
`{500, default}`. The caller-supplied default is optional in source
(`defaultMessage?: string`), falling back to `"An unknown error occurred"`. -/
def buildError (error : Option JSError) (defaultMessage : Option String) : WidgetError :=
  match error with
  | none => { code := 500, message := jsOrStr defaultMessage "An unknown error occurred" }
  | some err =>
    match err.statusCode with
    | some sc =>
      { code := mapCode sc, message := Cosmos.detailedMessage sc err.subStatusCode err.message }
    | none =>
      match err.code with
      | some c =>
        { code := mapCode c,
          message :=
            match err.message with
            | some m =>
              if m.trim = "" then jsOrStr defaultMessage "An unknown error occurred" else m
            | none => jsOrStr defaultMessage "An unknown error occurred" }
      | none => { code := 500, message := jsOrStr defaultMessage "An unknown error occurred" }

/-- Model of `cosmos-client.ts` `getDatabase` (lines 56-72): not-initialized
check (plain `Error`), cache lookup, `createIfNotExists`; a store failure is
rethrown as the plain `Error("Failed to get database <id>")` — not
normalized. -/
def getDatabase (ora : StoreOracle) (s : MgrState) (databaseId : String) :
    MgrState × Res Thrown Cosmos.DbHandle :=
  if !s.client then
    (s, .err (.raw "Cosmos client not initialized"))
  else
    match s.databases.lookup databaseId with
    | some h => (s, .ok h)
    | none =>
      match ora.dbCreate databaseId with
      | .ok _ =>
        ({ s with
             databases := (databaseId, { id := databaseId }) :: s.databases
             dbCreateLog := s.dbCreateLog ++ [databaseId] },
          .ok { id := databaseId })
      | .err _ =>
        ({ s with dbCreateLog := s.dbCreateLog ++ [databaseId] },
          .err (.raw s!"Failed to get database {databaseId}"))

/-- Model of `cosmos-client.ts` `getContainer` (lines 80-95): cache key
`` `${databaseId}-${containerId}` ``; on a miss, resolve the database and
create the container (no partition-key path — the handle records `""`); any
failure in the `try` block (including `getDatabase`'s own errors) is
rethrown as the plain `Error("Failed to get container <id>")`. -/
def getContainer (ora : StoreOracle) (s : MgrState) (databaseId containerId : String) :
    MgrState × Res Thrown Cosmos.CtHandle :=
  match s.containers.lookup (databaseId ++ "-" ++ containerId) with
  | some h => (s, .ok h)
  | none =>
    match getDatabase ora s databaseId with
    | (s1, .err _) =>
      (s1, .err (.raw s!"Failed to get container {containerId}"))
    | (s1, .ok db) =>
      match ora.ctCreate db.id containerId with
      | .ok _ =>
        ({ s1 with
             containers :=
               (databaseId ++ "-" ++ containerId,
                 { dbId := db.id, ctId := containerId, partitionKeyPath := "" }) ::
                 s1.containers
             ctCreateLog := s1.ctCreateLog ++ [(db.id, containerId)] },
          .ok { dbId := db.id, ctId := containerId, partitionKeyPath := "" })
      | .err _ =>
        ({ s1 with ctCreateLog := s1.ctCreateLog ++ [(db.id, containerId)] },
          .err (.raw s!"Failed to get container {containerId}"))

end CosmosTs

namespace Impl

/-!
Model of `WidgetsCosmosImpl`
(`src/tsp-output/server/src/controllers/widgets-cosmos.ts` lines 12-159).
The controller keeps its own `container` reference; on first use it asks
the `cosmos-client.ts` `CosmosClientManager` it imports (modelled in
`CosmosTs`) for the handle via
`getContainer(this.databaseName, this.containerName)`, and it normalizes
failures through the `cosmos-client.ts` `buildError` it imports
(`CosmosTs.buildError`, the variant without a lookup table).
-/

/-- Controller-side state: the manager it delegates to, the configured
names, and the controller's own cached container reference. -/
structure CtrlState : Type where
  mgr : CosmosTs.MgrState
  databaseName : String
  containerName : String
  container : Option Cosmos.CtHandle
deriving DecidableEq

/-- Combined world for a handler call: controller state, the document store
behind the container handle, and a ghost log of container-level store
operations performed. -/
structure World : Type where
  ctrl : CtrlState
  store : Store
  opLog : List String
deriving DecidableEq

/-- Model of `WidgetsCosmosImpl.getContainer` (lines 31-47): return the
cached container if present, otherwise resolve it through the manager and
cache it; manager failures are rethrown unchanged. -/
def getContainerImpl (ora : CosmosTs.StoreOracle) (s : CtrlState) :
    CtrlState × Res Thrown Cosmos.CtHandle :=
  match s.container with
  | some c => (s, .ok c)
  | none =>
    match CosmosTs.getContainer ora s.mgr s.databaseName s.containerName with
    | (m1, .ok c) => ({ s with mgr := m1, container := some c }, .ok c)
    | (m1, .err t) => ({ s with mgr := m1 }, .err t)

/-- The create-handler's `catch` block (lines 128-136): a failure exposing
`statusCode === 409` is replaced by `buildError({statusCode:409}, "Widget
with id <id> already exists")`; anything else goes through `buildError` with
the operation default message. -/
def createCatch (id : String) (e : JSError) : WidgetError :=
  if e.statusCode = some 409 then
    CosmosTs.buildError (some (jsStatus 409)) (some s!"Widget with id {id} already exists")
  else
    CosmosTs.buildError (some e) (some s!"Failed to create widget {id}")

/-- The delete-handler's `catch` block (lines 150-158), symmetric for 404. -/
def deleteCatch (id : String) (e : JSError) : WidgetError :=
  if e.statusCode = some 404 then
    CosmosTs.buildError (some (jsStatus 404)) (some s!"Widget with id {id} not found")
  else
    CosmosTs.buildError (some e) (some s!"Failed to delete widget {id}")

/-- Projection `documentToWidget` of `WidgetsCosmosImpl` (lines 51-57):
builds a fresh object from exactly the three public fields. -/
def documentToWidget (d : RWidget) : RWidget :=
  { id := d.id, weight := d.weight, color := d.color, ts := none, etag := none }

/-- Model of `WidgetsCosmosImpl.create` (lines 106-137): resolve the
container, issue `items.create` (the store rejects an existing id with a
409), strip the created resource through `documentToWidget`; failures are
classified by `createCatch`. -/
def create (ora : CosmosTs.StoreOracle) (w : World) (id : String) (weight : Int)
    (color : Color) : World × Res WidgetError RWidget :=
  match getContainerImpl ora w.ctrl with
  | (c1, .err t) => ({ w with ctrl := c1 }, .err (createCatch id (thrownAsJs t)))
  | (c1, .ok _) =>
    let w1 : World := { w with ctrl := c1, opLog := w.opLog ++ ["create " ++ id] }
    if w1.store.any (fun d => d.id == id) then
      (w1, .err (createCatch id (jsStatus 409)))
    else
      let meta := freshMeta w1.store
      let doc : StoredDoc := { id := id, weight := weight, color := color, ts := meta.1, etag := meta.2 }
      ({ w1 with store := w1.store ++ [doc] }, .ok (documentToWidget (storedToObj doc)))

/-- Model of `WidgetsCosmosImpl.read` (lines 86-101): resolve the container,
issue `item(id, id).read()`; a missing resource yields
`buildError({statusCode:404}, "Widget with id <id> not found")`; a found
document is stripped through `documentToWidget`; other failures go through
`buildError` with the operation default. -/
def read (ora : CosmosTs.StoreOracle) (w : World) (id : String) :
    World × Res WidgetError RWidget :=
  match getContainerImpl ora w.ctrl with
  | (c1, .err t) =>
    ({ w with ctrl := c1 },
      .err (CosmosTs.buildError (some (thrownAsJs t)) (some s!"Failed to read widget {id}")))
  | (c1, .ok _) =>
    let w1 : World := { w with ctrl := c1, opLog := w.opLog ++ ["read " ++ id] }
    match w1.store.find? (fun d => d.id == id) with
    | none =>
      (w1, .err (CosmosTs.buildError (some (jsStatus 404)) (some s!"Widget with id {id} not found")))
    | some d => (w1, .ok (documentToWidget (storedToObj d)))

/-- Model of `WidgetsCosmosImpl.delete` (lines 142-159): resolve the
container, issue `item(id, id).delete()` (the store rejects a missing id
with a 404, classified by `deleteCatch`); success has no payload. -/
def deleteW (ora : CosmosTs.StoreOracle) (w : World) (id : String) :
    World × Res WidgetError Unit :=
  match getContainerImpl ora w.ctrl with
  | (c1, .err t) => ({ w with ctrl := c1 }, .err (deleteCatch id (thrownAsJs t)))
  | (c1, .ok _) =>
    let w1 : World := { w with ctrl := c1, opLog := w.opLog ++ ["delete " ++ id] }
    if w1.store.any (fun d => d.id == id) then
      ({ w1 with store := w1.store.filter (fun d => d.id != id) }, .ok ())
    else
      (w1, .err (deleteCatch id (jsStatus 404)))

/-- Model of `WidgetsCosmosImpl.list` (lines 62-81): resolve the container,
fetch all documents with `SELECT * FROM c`, map `documentToWidget` over them
in store order. -/
def list (ora : CosmosTs.StoreOracle) (w : World) :
    World × Res WidgetError (List RWidget) :=
  match getContainerImpl ora w.ctrl with
  | (c1, .err t) =>
    ({ w with ctrl := c1 },
      .err (CosmosTs.buildError (some (thrownAsJs t)) (some "Failed to list widgets")))
  | (c1, .ok _) =>
    let w1 : World := { w with ctrl := c1, opLog := w.opLog ++ ["query"] }
    (w1, .ok ((w1.store.map storedToObj).map documentToWidget))

end Impl

namespace CtrlV1

/-!
Success-path model of the controller variant in `src/unnamed/part_002`
(`WidgetsCosmosController`), which differs from `WidgetsCosmosImpl` in what
it returns on success: `create` (lines 71-101) and `read` (lines 130-147)
return the store's `resource` verbatim, while `list` (lines 153-176) maps
each document through its `documentToWidget` (lines 180-186, which picks
exactly the three public fields). Container acquisition and error plumbing
are as in the other variants and are not duplicated here.
-/

/-- Model of `part_002` `create` over the document store: on conflict the
handler returns the specialized 409 `buildError`; on success it returns
`resource` — the stored document with its metadata keys — unstripped. -/
def create (store : Store) (id : String) (weight : Int) (color : Color) :
    Store × Res WidgetError RWidget :=
  if store.any (fun d => d.id == id) then
    (store, .err (Cosmos.buildError (some (jsStatus 409)) s!"Widget with id {id} already exists"))
  else
    let meta := freshMeta store
    let doc : StoredDoc := { id := id, weight := weight, color := color, ts := meta.1, etag := meta.2 }
    (store ++ [doc], .ok (storedToObj doc))

/-- Model of `part_002` `read`: a missing resource yields the specialized
404 `buildError`; a found document is returned verbatim (`return resource as
Widget`), metadata keys included. -/
def read (store : Store) (id : String) : Res WidgetError RWidget :=
  match store.find? (fun d => d.id == id) with
  | none => .err (Cosmos.buildError (some (jsStatus 404)) s!"Widget with id {id} not found")
  | some d => .ok (storedToObj d)

/-- Projection `documentToWidget` of `part_002` (lines 180-186): picks
exactly `id`, `weight`, `color`. -/
def documentToWidget (d : RWidget) : RWidget :=
  { id := d.id, weight := d.weight, color := d.color, ts := none, etag := none }

/-- Model of `part_002` `list`: all documents, each mapped through
`documentToWidget`. -/
def list (store : Store) : Res WidgetError (List RWidget) :=
  .ok ((store.map storedToObj).map documentToWidget)

end CtrlV1

namespace CtrlV2

/-- Projection `documentToWidget` of the second `WidgetsCosmosController`
class in `widgets-cosmos.ts` (lines 340-346): keeps every key that does not
start with `_`, i.e. drops the `_ts`/`_etag` metadata keys and keeps `id`,
`weight`, `color`. -/
def documentToWidget (d : RWidget) : RWidget :=
  { id := d.id, weight := d.weight, color := d.color, ts := none, etag := none }

/-!
The second `WidgetsCosmosController` class pairs with the `part_001`
manager: its constructor builds exactly `part_001`'s config shape
(`{endpoint, databaseId, containerId, partionKey}`, lines 203-208) and its
`ensureContainer` calls the four-argument
`getContainer(endpoint, databaseId, containerId, partitionKey)` (lines
221-226) matching `part_001`'s signature. It caches the resolved container
in `this.container` guarded by `this.containerInitialized`.
-/

/-- Controller-side state of `WidgetsCosmosController` (lines 175-182):
the `part_001` manager it delegates to, the configured coordinates, the
cached container reference and the initialized flag. -/
structure CtrlState : Type where
  mgr : CosmosAad.MgrState
  endpoint : String
  databaseId : String
  containerId : String
  partitionKey : String
  container : Option Cosmos.CtHandle
  containerInitialized : Bool
deriving DecidableEq

/-- Combined world for a handler call: controller state, the document store
behind the container handle, and a ghost log of container-level store
operations performed. -/
structure World : Type where
  ctrl : CtrlState
  store : Store
  opLog : List String
deriving DecidableEq

/-- The resolution arm of `ensureContainer` (lines 220-230): ask the
manager for the container and cache it; the surrounding `catch` (lines
232-239) wraps any failure through `buildError` with default
`"Failed to access container <containerId>"` and rethrows it. -/
def resolveContainer (ora : Cosmos.StoreOracle) (s : CtrlState) :
    CtrlState × Res Thrown Cosmos.CtHandle :=
  match CosmosAad.getContainer ora s.mgr s.endpoint s.databaseId s.containerId s.partitionKey with
  | (m1, .ok c) =>
    ({ s with mgr := m1, container := some c, containerInitialized := true }, .ok c)
  | (m1, .err t) =>
    let cid := s.containerId
    ({ s with mgr := m1 },
      .err (.normalized (Cosmos.buildError (some (thrownAsJs t))
        s!"Failed to access container {cid}")))

/-- Model of `WidgetsCosmosController.ensureContainer` (lines 218-240):
`if (!this.containerInitialized || !this.container)` resolve through the
manager, else return the cached container. -/
def ensureContainer (ora : Cosmos.StoreOracle) (s : CtrlState) :
    CtrlState × Res Thrown Cosmos.CtHandle :=
  match s.container with
  | none => resolveContainer ora s
  | some c =>
    if s.containerInitialized then (s, .ok c)
    else resolveContainer ora s

/-- Model of `WidgetsCosmosController.read` (lines 300-315): resolve the
container, issue `item(id, id).read()`; a missing resource yields
`buildError({statusCode:404}, "Widget with id <id> not found")`; a found
document goes through `documentToWidget`; failures go through `buildError`
with the operation default. -/
def read (ora : Cosmos.StoreOracle) (w : World) (id : String) :
    World × Res WidgetError RWidget :=
  match ensureContainer ora w.ctrl with
  | (c1, .err t) =>
    ({ w with ctrl := c1 },
      .err (Cosmos.buildError (some (thrownAsJs t)) s!"Failed to read widget {id}"))
  | (c1, .ok _) =>
    let w1 : World := { w with ctrl := c1, opLog := w.opLog ++ ["read " ++ id] }
    match w1.store.find? (fun d => d.id == id) with
    | none => (w1, .err (Cosmos.buildError (some (jsStatus 404)) s!"Widget with id {id} not found"))
    | some d => (w1, .ok (documentToWidget (storedToObj d)))

end CtrlV2

/-! Concrete states and oracles used to evaluate the models at specific
inputs. -/

/-- Store behaviour where every `createIfNotExists` round trip succeeds. -/
def allOkOracle : Cosmos.StoreOracle :=
  { dbCreate := fun _ => .ok (), ctCreate := fun _ _ _ => .ok () }

/-- Store behaviour where database resolution succeeds but container
creation fails with a 503 from the service. -/
def ctFailOracle : Cosmos.StoreOracle :=
  { dbCreate := fun _ => .ok ()
    ctCreate := fun _ _ _ => .err (jsStatus 503) }

/-- A valid `part_000` configuration. -/
def cfg0 : Cosmos.Config :=
  { endpoint := "https://example.documents.azure.com", key := "key0", databaseId := "widgets-db" }

/-- A freshly initialized `part_000` manager: client held, empty caches. -/
def mgrReady : Cosmos.MgrState :=
  { client := true
    isInitializing := false
    config := some cfg0
    databaseCache := []
    containerCache := []
    constructCount := 1
    dbCreateLog := []
    ctCreateLog := [] }

/-- The container handle the example controller works against. -/
def ctHandle0 : Cosmos.CtHandle :=
  { dbId := "widgets-db", ctId := "Widgets", partitionKeyPath := "/id" }

/-- A stored widget document, metadata attached by the store. -/
def docW1 : StoredDoc :=
  { id := "w1", weight := 2, color := Color.red, ts := 10, etag := "e10" }

/-- Store behaviour of the `cosmos-client.ts` manager where every round
trip succeeds. -/
def tsAllOkOracle : CosmosTs.StoreOracle :=
  { dbCreate := fun _ => .ok (), ctCreate := fun _ _ => .ok () }

/-- An initialized `cosmos-client.ts` manager: client held, empty caches. -/
def tsMgrReady : CosmosTs.MgrState :=
  { client := true, databases := [], containers := [], dbCreateLog := [], ctCreateLog := [] }

/-- Controller that has already resolved and cached its container. -/
def ctrlReady : Impl.CtrlState :=
  { mgr := tsMgrReady, databaseName := "WidgetsDb", containerName := "Widgets",
    container := some ctHandle0 }

/-- World for the handler claims: warm controller, store holding `w1`. -/
def worldW1 : Impl.World :=
  { ctrl := ctrlReady, store := [docW1], opLog := [] }

/-- A valid `part_001` configuration. -/
def aadCfg0 : CosmosAad.Config :=
  { endpoint := "https://example.documents.azure.com", databaseId := "widgets-db",
    containerId := "widgets", partionKey := "/id" }

/-- The container handle of the `part_001`-backed controller. -/
def ctHandleV2 : Cosmos.CtHandle :=
  { dbId := "widgets-db", ctId := "widgets", partitionKeyPath := "/id" }

/-- A `part_001` manager with warm caches, as left behind by earlier
successful operations. -/
def aadWarm : CosmosAad.MgrState :=
  { client := true
    isInitializing := false
    config := some aadCfg0
    databaseCache := [("widgets-db", { id := "widgets-db" })]
    containerCache := [("widgets-db-widgets", ctHandleV2)]
    constructCount := 1 }

/-- World after `dispose()` in which the controller still holds the
container reference it cached before the dispose. -/
def v2Stale : CtrlV2.World :=
  { ctrl := { mgr := CosmosAad.dispose aadWarm, endpoint := "https://example.documents.azure.com",
              databaseId := "widgets-db", containerId := "widgets", partitionKey := "/id",
              container := some ctHandleV2, containerInitialized := true }
    store := [docW1]
    opLog := [] }

/-- World after `dispose()` in which the controller has no cached container
reference. -/
def v2Cold : CtrlV2.World :=
  { ctrl := { mgr := CosmosAad.dispose aadWarm, endpoint := "https://example.documents.azure.com",
              databaseId := "widgets-db", containerId := "widgets", partitionKey := "/id",
              container := none, containerInitialized := false }
    store := [docW1]
    opLog := [] }

/-- A fresh, never-initialized `part_001` manager. -/
def aadFresh : CosmosAad.MgrState :=
  { client := false, isInitializing := false, config := none,
    databaseCache := [], containerCache := [], constructCount := 0 }

/-- A `part_001` configuration whose partition-key path is empty but whose
other fields are present. -/
def aadCfgNoPk : CosmosAad.Config :=
  { endpoint := "https://example.documents.azure.com", databaseId := "widgets-db",
    containerId := "widgets", partionKey := "" }

/-- A `part_001` configuration with an empty endpoint. -/
def aadCfgNoEndpoint : CosmosAad.Config :=
  { endpoint := "", databaseId := "widgets-db", containerId := "widgets",
    partionKey := "/id" }

/-- Test that `pat` is a leading segment of `l`. -/
def charsLeading : List Char → List Char → Bool
  | [], _ => true
  | _ :: _, [] => false
  | a :: ps, b :: bs => a == b && charsLeading ps bs

/-- Test that `pat` occurs contiguously somewhere inside `l`. -/
def charsInside (pat : List Char) : List Char → Bool
  | [] => charsLeading pat []
  | b :: bs => charsLeading pat (b :: bs) || charsInside pat bs

/-- Substring test used to state "the message contains the id". -/
def strContains (s pat : String) : Bool :=
  charsInside pat.data s.data

/-- A failure value exposing vendor code 1001 while also carrying an abort
name — input on which the vendor-code branch is shadowed by the
abort/timeout branch. -/
def abortVendorErr : JSError :=
  { name := some "AbortError", code := some 1001, statusCode := none,
    subStatusCode := none, message := none }

/-- Container handle produced by the first call of the cache-key-collision
scenario: database `"a"`, container `"b-c"`. -/
def hBC : Cosmos.CtHandle :=
  { dbId := "a", ctId := "b-c", partitionKeyPath := "/id" }

/-- Manager state after resolving container `"b-c"` of database `"a"`: the
container cache holds the colliding key `"a-b-c"`. -/
def mgrAfterBC : Cosmos.MgrState :=
  { mgrReady with
      databaseCache := [("a", { id := "a" })]
      containerCache := [("a-b-c", hBC)]
      dbCreateLog := ["a"]
      ctCreateLog := [("a", "b-c", "/id")] }


/-! ## Helper lemmas -/

/-- Reading an index that holds a value proves membership. -/
theorem mem_of_getElemQ {α : Type} {l : List α} {n : Nat} {a : α} (h : l[n]? = some a) :
    a ∈ l := by
  obtain ⟨hl, he⟩ := List.getElem?_eq_some.mp h
  exact he ▸ List.getElem_mem hl

/-- Every member sits at some readable index. -/
theorem getElemQ_of_mem {α : Type} {l : List α} {a : α} (h : a ∈ l) :
    ∃ n : Nat, l[n]? = some a := by
  obtain ⟨n, hn, he⟩ := List.getElem_of_mem h
  exact ⟨n, by rw [List.getElem?_eq_getElem hn]; exact congrArg some he⟩

/-- Setting index `i` makes it readable at `i`. -/
theorem getElemQ_set_self {α : Type} (l : List α) (i : Nat) (a : α) (h : i < l.length) :
    (l.set i a)[i]? = some a := by
  simp [List.getElem?_set_self, h]

/-- Setting index `j` leaves reads at `i ≠ j` unchanged. -/
theorem getElemQ_set_ne {α : Type} (l : List α) (i j : Nat) (a : α) (h : j ≠ i) :
    (l.set j a)[i]? = l[i]? := by
  simp [List.getElem?_set_ne h]

/-- A string starting with a nonempty prelude is not empty. -/
theorem string_append_ne_empty (s t : String) (h : s.data ≠ []) : s ++ t ≠ "" := by
  intro he
  apply h
  have hd : (s ++ t).data = s.data ++ t.data := String.data_append s t
  rw [he] at hd
  exact (List.append_eq_nil.mp hd.symm).1

namespace InitMachine

/-- A scheduling slot does not change the number of callers. -/
theorem length_stepTask (v : Bool) (s : CState) (i : Nat) :
    (stepTask v s i).tasks.length = s.tasks.length := by
  unfold stepTask
  split
  · rfl
  · split
    · simp [List.length_set]
    · split
      · simp [List.length_set]
      · split <;> simp [List.length_set]
  · split <;> simp [List.length_set]
  · rfl

/-- For a valid configuration, `Inv` is preserved by every scheduling slot. -/
theorem inv_stepTask (s : CState) (i : Nat) (h : Inv s) : Inv (stepTask true s i) := by
  obtain ⟨h1, h2, h3, h4, h5⟩ := h
  cases hg : s.tasks[i]? with
  | none =>
    unfold stepTask
    rw [hg]
    exact ⟨h1, h2, h3, h4, h5⟩
  | some t =>
    have hmem : t ∈ s.tasks := mem_of_getElemQ hg
    cases t with
    | done b =>
      unfold stepTask
      rw [hg]
      exact ⟨h1, h2, h3, h4, h5⟩
    | waiting =>
      rcases h4 _ hmem with h | h <;> simp at h
    | pending =>
      unfold stepTask
      rw [hg]
      by_cases hc : s.clientExists = true
      · rw [if_pos hc]
        refine ⟨h1, h2, h3, ?_, ?_⟩
        · intro t ht
          rcases List.mem_or_eq_of_mem_set ht with ht | ht
          · exact h4 t ht
          · right; rw [ht]
        · intro hcf t ht
          exact absurd hcf (by simp [hc])
      · have hcf : s.clientExists = false := by simpa using hc
        rw [if_neg hc, if_neg (by simp [h1]), if_pos rfl]
        refine ⟨rfl, ?_, ?_, ?_, ?_⟩
        · intro _
          have : s.constructCount = 0 := h3 hcf
          simp [this]
        · intro hfalse; cases hfalse
        · intro t ht
          rcases List.mem_or_eq_of_mem_set ht with ht | ht
          · left; exact h5 hcf t ht
          · right; rw [ht]
        · intro hfalse; cases hfalse

/-- Under `Inv`, giving a slot to caller `i` finishes caller `i`
successfully. -/
theorem stepTask_done_self (s : CState) (i : Nat) (h : Inv s) (hlt : i < s.tasks.length) :
    (stepTask true s i).tasks[i]? = some (TaskSt.done true) := by
  obtain ⟨h1, h2, h3, h4, h5⟩ := h
  cases hg : s.tasks[i]? with
  | none =>
    have := List.getElem?_eq_none_iff.mp hg
    omega
  | some t =>
    have hmem : t ∈ s.tasks := mem_of_getElemQ hg
    cases t with
    | waiting =>
      rcases h4 _ hmem with h | h <;> simp at h
    | done b =>
      rcases h4 _ hmem with h | h
      · simp at h
      · unfold stepTask
        rw [hg, hg, h]
    | pending =>
      unfold stepTask
      rw [hg]
      by_cases hc : s.clientExists = true
      · rw [if_pos hc]
        exact getElemQ_set_self _ _ _ hlt
      · rw [if_neg hc, if_neg (by simp [h1]), if_pos rfl]
        exact getElemQ_set_self _ _ _ hlt

/-- Under `Inv`, a caller that has finished successfully stays finished. -/
theorem stepTask_keeps_done (s : CState) (i j : Nat) (h : Inv s)
    (hd : s.tasks[i]? = some (TaskSt.done true)) :
    (stepTask true s j).tasks[i]? = some (TaskSt.done true) := by
  obtain ⟨h1, h2, h3, h4, h5⟩ := h
  cases hg : s.tasks[j]? with
  | none =>
    unfold stepTask
    rw [hg]
    exact hd
  | some t =>
    by_cases hij : j = i
    · subst hij
      rw [hg] at hd
      injection hd with hd
      subst hd
      unfold stepTask
      rw [hg, hg]
    · cases t with
      | done b =>
        unfold stepTask
        rw [hg]
        exact hd
      | waiting =>
        rcases h4 _ (mem_of_getElemQ hg) with h | h <;> simp at h
      | pending =>
        by_cases hc : s.clientExists = true
        · unfold stepTask
          rw [hg, if_pos hc]
          rw [getElemQ_set_ne _ _ _ _ hij]
          exact hd
        · have hcf : s.clientExists = false := by simpa using hc
          have := h5 hcf _ (mem_of_getElemQ hd)
          simp at this

/-- `Inv` is preserved by whole schedules. -/
theorem inv_run (l : List Nat) : ∀ s : CState, Inv s → Inv (run true s l) := by
  induction l with
  | nil => intro s h; exact h
  | cons j l ih =>
    intro s h
    exact ih _ (inv_stepTask s j h)

/-- A successfully finished caller stays finished over a whole schedule. -/
theorem run_keeps_done (l : List Nat) : ∀ (s : CState) (i : Nat), Inv s →
    s.tasks[i]? = some (TaskSt.done true) →
    (run true s l).tasks[i]? = some (TaskSt.done true) := by
  induction l with
  | nil => intro s i _ hd; exact hd
  | cons j l ih =>
    intro s i h hd
    exact ih _ i (inv_stepTask s j h) (stepTask_keeps_done s i j h hd)

/-- Schedules do not change the number of callers. -/
theorem length_run (l : List Nat) : ∀ s : CState,
    (run true s l).tasks.length = s.tasks.length := by
  induction l with
  | nil => intro s; rfl
  | cons j l ih =>
    intro s
    rw [run, List.foldl_cons]
    have := ih (stepTask true s j)
    rw [run] at this
    rw [this, length_stepTask]

/-- Every caller the schedule reaches finishes successfully. -/
theorem run_done_of_mem (l : List Nat) : ∀ (s : CState) (i : Nat), Inv s →
    i < s.tasks.length → i ∈ l →
    (run true s l).tasks[i]? = some (TaskSt.done true) := by
  induction l with
  | nil => intro s i _ _ hmem; cases hmem
  | cons j l ih =>
    intro s i h hlt hmem
    by_cases hij : i = j
    · subst hij
      exact run_keeps_done l _ i (inv_stepTask s i h) (stepTask_done_self s i h hlt)
    · have hmem' : i ∈ l := by
        rcases List.mem_cons.mp hmem with h' | h'
        · exact absurd h' hij
        · exact h'
      have hlt' : i < (stepTask true s j).tasks.length := by
        rw [length_stepTask]; exact hlt
      exact ih _ i (inv_stepTask s j h) hlt' hmem'

/-- The fresh-start state satisfies `Inv`. -/
theorem inv_initial (n : Nat) : Inv (initial n) := by
  refine ⟨rfl, ?_, ?_, ?_, ?_⟩
  · intro h; cases h
  · intro _; rfl
  · intro t ht; left; exact List.eq_of_mem_replicate ht
  · intro _ t ht; exact List.eq_of_mem_replicate ht

end InitMachine

/-- `buildError` on a bare `{statusCode: sc}` object lands in the
`statusCode` branch for every default message. -/
theorem buildError_jsStatus (sc : Int) (d : String) :
    Cosmos.buildError (some (jsStatus sc)) d =
      { code := sc, message := Cosmos.statusMessage sc none none } := rfl

/-- `buildError` on a plain `Error` object (name `"Error"`, any message)
falls through every branch and returns `{500, defaultMessage}`. -/
theorem buildError_errObj (m d : String) :
    Cosmos.buildError
      (some { name := some "Error", code := none, statusCode := none,
              subStatusCode := none, message := some m }) d =
      { code := 500, message := d } := rfl

/-- C5 (confirmed): for every valid configuration and every number `n > 0`
of concurrent callers of `initialize`, under every cooperative interleaving
that eventually schedules each caller, exactly one `CosmosClient` is
constructed and all `n` callers finish successfully. -/
theorem c5_concurrent_initialize_once (cfg : Cosmos.Config)
    (hv : Cosmos.validateConfig cfg = none) (n : Nat) (hn : 0 < n)
    (sched : List Nat) (hs : ∀ i : Nat, i < n → i ∈ sched) :
    (InitMachine.run (Cosmos.validateConfig cfg).isNone (InitMachine.initial n) sched).constructCount = 1 ∧
    ∀ t ∈ (InitMachine.run (Cosmos.validateConfig cfg).isNone (InitMachine.initial n) sched).tasks,
      t = InitMachine.TaskSt.done true := by
  have hvb : (Cosmos.validateConfig cfg).isNone = true := by rw [hv]; rfl
  rw [hvb]
  have hinv := InitMachine.inv_initial n
  have hlen0 : (InitMachine.initial n).tasks.length = n := by
    simp [InitMachine.initial]
  have hall : ∀ i : Nat, i < n →
      (InitMachine.run true (InitMachine.initial n) sched).tasks[i]? =
        some (InitMachine.TaskSt.done true) := by
    intro i hi
    exact InitMachine.run_done_of_mem sched _ i hinv (by rw [hlen0]; exact hi) (hs i hi)
  have hlenf : (InitMachine.run true (InitMachine.initial n) sched).tasks.length = n := by
    rw [InitMachine.length_run, hlen0]
  constructor
  · obtain ⟨f1, f2, f3, f4, f5⟩ := InitMachine.inv_run sched _ hinv
    by_cases hc : (InitMachine.run true (InitMachine.initial n) sched).clientExists = true
    · exact f2 hc
    · have hcf : (InitMachine.run true (InitMachine.initial n) sched).clientExists = false := by
        simpa using hc
      have h0 := hall 0 hn
      have := f5 hcf _ (mem_of_getElemQ h0)
      simp at this
  · intro t ht
    obtain ⟨i, hi⟩ := getElemQ_of_mem ht
    have hilt : i < n := by
      have := (List.getElem?_eq_some.mp hi).1
      rw [hlenf] at this
      exact this
    have hdone := hall i hilt
    rw [hi] at hdone
    injection hdone

/-- Witness for C5 at a concrete configuration, three callers and the
round-robin schedule. -/
theorem c5_witness :
    Cosmos.validateConfig cfg0 = none ∧ 0 < 3 ∧
    (∀ i : Nat, i < 3 → i ∈ [0, 1, 2]) ∧
    ((InitMachine.run (Cosmos.validateConfig cfg0).isNone (InitMachine.initial 3) [0, 1, 2]).constructCount = 1 ∧
      ∀ t ∈ (InitMachine.run (Cosmos.validateConfig cfg0).isNone (InitMachine.initial 3) [0, 1, 2]).tasks,
        t = InitMachine.TaskSt.done true) := by
  have hmem : ∀ i : Nat, i < 3 → i ∈ [0, 1, 2] := by
    intro i hi
    interval_cases i <;> simp
  exact ⟨by decide, by omega, hmem,
    c5_concurrent_initialize_once cfg0 (by decide) 3 (by omega) [0, 1, 2] hmem⟩

/-- C6 (confirmed): once the client is held, a further sequential
`initialize` call is a silent no-op: no new client, identical state,
successful return. -/
theorem c6_initialize_idempotent (s : Cosmos.MgrState) (cfg : Cosmos.Config)
    (h : s.client = true) :
    Cosmos.initializeClient s cfg = some (s, Res.ok ()) := by
  unfold Cosmos.initializeClient
  rw [if_pos h]

/-- Witness for C6 on the concrete initialized manager. -/
theorem c6_witness :
    mgrReady.client = true ∧
    Cosmos.initializeClient mgrReady cfg0 = some (mgrReady, Res.ok ()) :=
  ⟨rfl, c6_initialize_idempotent mgrReady cfg0 rfl⟩

/-- C2 (counterexample): `buildError({statusCode: 404}, "x")` produces the
table message with a capital "The", not the lowercase message the claim
states. -/
theorem c2_counterexample :
    Cosmos.buildError (some (jsStatus 404)) "x" =
      { code := 404, message := "Not found: The requested resource doesn't exist" } ∧
    "Not found: The requested resource doesn't exist" ≠
      "Not found: the requested resource doesn't exist" := by decide

/-- C2 (amended): for a failure with a numeric `statusCode`, no vendor
`code`, and a name that is not abort/timeout, `buildError` returns the
`statusCode` as `code`; the message is exactly the table message when the
code is mapped (with the table's own capitalisation) and the synthesized
`"Cosmos DB error: statusCode=..."` string otherwise. -/
theorem c2_amended (e : JSError) (d : String) (sc : Int)
    (hcode : e.code = none) (hsc : e.statusCode = some sc)
    (hab : e.name ≠ some "AbortError") (hto : e.name ≠ some "TimeoutError") :
    Cosmos.buildError (some e) d =
      { code := sc, message := Cosmos.statusMessage sc e.subStatusCode e.message } ∧
    (∀ m, Cosmos.errorMap sc = some m →
      Cosmos.statusMessage sc e.subStatusCode e.message = m) ∧
    (Cosmos.errorMap sc = none →
      Cosmos.statusMessage sc e.subStatusCode e.message =
        Cosmos.detailedMessage sc e.subStatusCode e.message) := by
  have hn1 : (e.name == some "AbortError") = false := beq_eq_false_iff_ne.mpr hab
  have hn2 : (e.name == some "TimeoutError") = false := beq_eq_false_iff_ne.mpr hto
  refine ⟨?_, ?_, ?_⟩
  · unfold Cosmos.buildError
    simp only [hcode, jsTruthyInt, Bool.false_and, Bool.false_eq_true, if_false,
      hn1, hn2, Bool.or_self, hsc]
  · intro m hm
    simp [Cosmos.statusMessage, hm]
  · intro hm
    simp [Cosmos.statusMessage, hm]

/-- Witness for C2's amended statement at `{statusCode: 404}` and default
`"x"`. -/
theorem c2_amended_witness :
    (jsStatus 404).code = none ∧ (jsStatus 404).statusCode = some 404 ∧
    Cosmos.buildError (some (jsStatus 404)) "x" =
      { code := 404,
        message := Cosmos.statusMessage 404 (jsStatus 404).subStatusCode (jsStatus 404).message } ∧
    Cosmos.errorMap 404 = some "Not found: The requested resource doesn't exist" := by
  refine ⟨rfl, rfl, ?_, by decide⟩
  exact (c2_amended (jsStatus 404) "x" 404 rfl rfl (by decide) (by decide)).1

/-- C3 (counterexample): a failure exposing vendor code 1001 and no
`statusCode` but named `AbortError` hits the abort/timeout branch first, so
`buildError` returns 504, not the vendor-mapped 404 the claim requires. -/
theorem c3_counterexample :
    Cosmos.buildError (some abortVendorErr) "x" =
      { code := 504, message := "Gateway timeout: CosmosDB operation timed out" } ∧
    (Cosmos.buildError (some abortVendorErr) "x").code ≠ 404 := by decide

/-- C3 (amended): for a failure with a numeric vendor `code`, no
`statusCode`, and a name that is not abort/timeout, `buildError` maps
1001→404, 1008→408, 1009→409, 1029→429, passes other vendor codes through,
and picks the failure's own nonempty message, else the table message for
the mapped code, else the caller default. -/
theorem c3_amended (e : JSError) (d : String) (c : Int)
    (hsc : e.statusCode = none) (hcode : e.code = some c)
    (hab : e.name ≠ some "AbortError") (hto : e.name ≠ some "TimeoutError") :
    Cosmos.buildError (some e) d =
      { code := Cosmos.mapVendorCode c,
        message := jsOrStr e.message ((Cosmos.errorMap (Cosmos.mapVendorCode c)).getD d) } ∧
    Cosmos.mapVendorCode 1001 = 404 ∧ Cosmos.mapVendorCode 1008 = 408 ∧
    Cosmos.mapVendorCode 1009 = 409 ∧ Cosmos.mapVendorCode 1029 = 429 ∧
    ∀ c0 : Int, c0 ≠ 1001 → c0 ≠ 1008 → c0 ≠ 1009 → c0 ≠ 1029 →
      Cosmos.mapVendorCode c0 = c0 := by
  have hn1 : (e.name == some "AbortError") = false := beq_eq_false_iff_ne.mpr hab
  have hn2 : (e.name == some "TimeoutError") = false := beq_eq_false_iff_ne.mpr hto
  refine ⟨?_, by decide, by decide, by decide, by decide, ?_⟩
  · unfold Cosmos.buildError
    simp only [hsc, jsTruthyInt, Bool.and_false, Bool.false_eq_true, if_false,
      hn1, hn2, Bool.or_self, hcode]
  · intro c0 h1 h2 h3 h4
    unfold Cosmos.mapVendorCode
    rw [if_neg h1, if_neg h2, if_neg h3, if_neg h4]

/-- Witness for C3's amended statement at `{code: 1029}` and default `"x"`. -/
theorem c3_amended_witness :
    ({ name := none, code := some 1029, statusCode := none, subStatusCode := none,
       message := none } : JSError).statusCode = none ∧
    Cosmos.buildError
      (some { name := none, code := some 1029, statusCode := none,
              subStatusCode := none, message := none }) "x" =
      { code := Cosmos.mapVendorCode 1029,
        message := jsOrStr none ((Cosmos.errorMap (Cosmos.mapVendorCode 1029)).getD "x") } := by
  refine ⟨rfl, ?_⟩
  exact (c3_amended _ "x" 1029 rfl rfl (by decide) (by decide)).1

/-- For every default message, the `cosmos-client.ts` normalizer turns
`{statusCode:409}` into the synthesized detail string — the default is
discarded. -/
theorem buildErrorTs_status409 (d : Option String) :
    CosmosTs.buildError (some (jsStatus 409)) d =
      { code := 409, message := "Cosmos DB error: statusCode=409" } := by
  show ({ code := CosmosTs.mapCode 409,
          message := Cosmos.detailedMessage 409 none none } : WidgetError) = _
  decide

/-- For every default message, the `cosmos-client.ts` normalizer turns
`{statusCode:404}` into the synthesized detail string — the default is
discarded. -/
theorem buildErrorTs_status404 (d : Option String) :
    CosmosTs.buildError (some (jsStatus 404)) d =
      { code := 404, message := "Cosmos DB error: statusCode=404" } := by
  show ({ code := CosmosTs.mapCode 404,
          message := Cosmos.detailedMessage 404 none none } : WidgetError) = _
  decide

/-- C1 (counterexample): on a store already holding `w1`, the create
handler returns code 409 but the synthesized `"Cosmos DB error:
statusCode=409"` message, which does not contain the id `w1`; read and
delete of the missing `w7` return code 404 with `"Cosmos DB error:
statusCode=404"`, which does not contain `w7`. -/
theorem c1_counterexample :
    (Impl.create tsAllOkOracle worldW1 "w1" 3 Color.blue).2 =
      Res.err { code := 409, message := "Cosmos DB error: statusCode=409" } ∧
    strContains "Cosmos DB error: statusCode=409" "w1" = false ∧
    (Impl.read tsAllOkOracle worldW1 "w7").2 =
      Res.err { code := 404, message := "Cosmos DB error: statusCode=404" } ∧
    (Impl.deleteW tsAllOkOracle worldW1 "w7").2 =
      Res.err { code := 404, message := "Cosmos DB error: statusCode=404" } ∧
    strContains "Cosmos DB error: statusCode=404" "w7" = false := by decide

/-- C1 (amended): with the container handle resolved, a create on an
existing id yields exactly `{409, "Cosmos DB error: statusCode=409"}` and a
read/delete of a missing id yields exactly `{404, "Cosmos DB error:
statusCode=404"}` — the codes the claim states, but synthesized messages
rather than messages naming the identifier: the handlers pass the
id-bearing text only as the default message, which the imported
`cosmos-client.ts` `buildError` discards whenever a numeric `statusCode` is
present. -/
theorem c1_amended (ora : CosmosTs.StoreOracle) (w : Impl.World) (id : String)
    (wt : Int) (col : Color) (hc : w.ctrl.container.isSome = true) :
    (w.store.any (fun d => d.id == id) = true →
      (Impl.create ora w id wt col).2 =
        Res.err { code := 409, message := "Cosmos DB error: statusCode=409" }) ∧
    (w.store.any (fun d => d.id == id) = false →
      (Impl.read ora w id).2 =
        Res.err { code := 404, message := "Cosmos DB error: statusCode=404" } ∧
      (Impl.deleteW ora w id).2 =
        Res.err { code := 404, message := "Cosmos DB error: statusCode=404" }) := by
  obtain ⟨c, hcon⟩ := Option.isSome_iff_exists.mp hc
  refine ⟨?_, ?_⟩
  · intro hany
    simp only [Impl.create, Impl.getContainerImpl, hcon, hany, if_true, Impl.createCatch]
    rw [if_pos (show (jsStatus 409).statusCode = some 409 from rfl), buildErrorTs_status409]
  · intro hany
    have hfind : w.store.find? (fun d => d.id == id) = none := by
      cases hf : w.store.find? (fun d => d.id == id) with
      | none => rfl
      | some y =>
        have hy := List.find?_some hf
        have hmem := List.mem_of_find?_eq_some hf
        have hcontra : w.store.any (fun d => d.id == id) = true :=
          List.any_eq_true.mpr ⟨y, hmem, hy⟩
        rw [hany] at hcontra
        cases hcontra
    constructor
    · simp only [Impl.read, Impl.getContainerImpl, hcon, hfind]
      rw [buildErrorTs_status404]
    · simp only [Impl.deleteW, Impl.getContainerImpl, hcon, hany, Impl.deleteCatch,
        Bool.false_eq_true, if_false]
      rw [if_pos (show (jsStatus 404).statusCode = some 404 from rfl), buildErrorTs_status404]

/-- Witness for C1's amended statement on the concrete warm world. -/
theorem c1_amended_witness :
    worldW1.ctrl.container.isSome = true ∧
    worldW1.store.any (fun d => d.id == "w1") = true ∧
    (Impl.create tsAllOkOracle worldW1 "w1" 5 Color.blue).2 =
      Res.err { code := 409, message := "Cosmos DB error: statusCode=409" } := by
  refine ⟨rfl, by decide, ?_⟩
  exact (c1_amended tsAllOkOracle worldW1 "w1" 5 Color.blue rfl).1 (by decide)

/-- C4 (counterexample): `initialize` of the `part_001` manager accepts a
configuration whose partition-key path is empty (no configuration error at
all), and when the endpoint is empty it throws the `buildError`-normalized
`{500, "Failed to initialize CosmosDB client"}` rather than the raw
configuration error. -/
theorem c4_counterexample :
    CosmosAad.initializeClient aadFresh aadCfgNoPk =
      some ({ client := true, isInitializing := false, config := some aadCfgNoPk,
              databaseCache := [], containerCache := [], constructCount := 1 },
        Res.ok ()) ∧
    CosmosAad.initializeClient aadFresh aadCfgNoEndpoint =
      some (aadFresh,
        Res.err (Thrown.normalized
          { code := 500, message := "Failed to initialize CosmosDB client" })) := by decide

/-- C4 (amended): on a fresh manager, `initialize` fails exactly when
endpoint, database id or container id is empty — the partition-key path
(and, in this variant, credential material) is never validated — and the
configuration error is caught and passed through the Error Normalizer,
surfacing as the normalized `{500, "Failed to initialize CosmosDB
client"}` thrown value rather than being raised as-is. -/
theorem c4_amended (s : CosmosAad.MgrState) (cfg : CosmosAad.Config)
    (hc : s.client = false) (hflag : s.isInitializing = false) :
    ((CosmosAad.validateConfig cfg).isSome = true →
      CosmosAad.initializeClient s cfg =
        some (s, Res.err (Thrown.normalized
          { code := 500, message := "Failed to initialize CosmosDB client" }))) ∧
    (CosmosAad.validateConfig cfg = none →
      CosmosAad.initializeClient s cfg =
        some ({ s with
                  config := some cfg
                  client := true
                  constructCount := s.constructCount + 1 }, Res.ok ())) ∧
    (CosmosAad.validateConfig cfg = none ↔
      cfg.endpoint ≠ "" ∧ cfg.databaseId ≠ "" ∧ cfg.containerId ≠ "") := by
  refine ⟨?_, ?_, ?_⟩
  · intro hv
    obtain ⟨msg, hm⟩ := Option.isSome_iff_exists.mp hv
    unfold CosmosAad.initializeClient
    rw [if_neg (by simp [hc]), if_neg (by simp [hflag])]
    simp only [hm, buildError_errObj]
    have hstate : { s with isInitializing := false } = s := by
      cases s
      simp_all
    rw [hstate]
  · intro hv
    unfold CosmosAad.initializeClient
    rw [if_neg (by simp [hc]), if_neg (by simp [hflag])]
    simp only [hv]
    cases s
    simp_all
  · unfold CosmosAad.validateConfig
    by_cases h1 : cfg.endpoint = "" <;> by_cases h2 : cfg.databaseId = "" <;>
      by_cases h3 : cfg.containerId = "" <;> simp_all

/-- Witness for C4's amended statement on the fresh manager and the
empty-endpoint configuration. -/
theorem c4_amended_witness :
    (CosmosAad.validateConfig aadCfgNoEndpoint).isSome = true ∧
    CosmosAad.initializeClient aadFresh aadCfgNoEndpoint =
      some (aadFresh, Res.err (Thrown.normalized
        { code := 500, message := "Failed to initialize CosmosDB client" })) := by
  refine ⟨by decide, ?_⟩
  exact (c4_amended aadFresh aadCfgNoEndpoint rfl rfl).1 (by decide)

/-- C10 (confirmed): the container cache key is the concatenation
`"<db>-<container>"`, so the distinct requests (database `"a"`, container
`"b-c"`) and (database `"a-b"`, container `"c"`) collide on key
`"a-b-c"`: the second call returns the handle created for the first pair —
its container id is `"b-c"`, not the requested `"c"` — with no further
creation round trip and no state change. -/
theorem c10_cache_key_collision :
    Cosmos.getContainer allOkOracle mgrReady "b-c" (some "a") "/id" =
      (mgrAfterBC, Res.ok hBC) ∧
    Cosmos.getContainer allOkOracle mgrAfterBC "c" (some "a-b") "/id" =
      (mgrAfterBC, Res.ok hBC) ∧
    hBC.ctId = "b-c" ∧ hBC.ctId ≠ "c" ∧
    mgrAfterBC.ctCreateLog = [("a", "b-c", "/id")] := by decide

/-- On every path, `getDatabase` leaves the container cache untouched and
either leaves the database cache unchanged or prepends exactly one new
(valid) entry. -/
theorem getDatabase_cache_shape (ora : Cosmos.StoreOracle) (s : Cosmos.MgrState)
    (dbid : Option String) :
    (Cosmos.getDatabase ora s dbid).1.containerCache = s.containerCache ∧
    ((Cosmos.getDatabase ora s dbid).1.databaseCache = s.databaseCache ∨
      ∃ p, (Cosmos.getDatabase ora s dbid).1.databaseCache = p :: s.databaseCache) := by
  unfold Cosmos.getDatabase
  split
  · exact ⟨rfl, Or.inl rfl⟩
  · split
    · exact ⟨rfl, Or.inl rfl⟩
    · split
      · exact ⟨rfl, Or.inl rfl⟩
      · split
        · exact ⟨rfl, Or.inl rfl⟩
        · split
          · exact ⟨rfl, Or.inr ⟨_, rfl⟩⟩
          · exact ⟨rfl, Or.inl rfl⟩

/-- C7 (amended): a failed `getContainer` never adds or changes a container
cache entry; the database cache is unchanged unless the failure happened in
container creation after a successful database resolution, in which case the
database cache has gained exactly that (valid) database entry. -/
theorem c7_amended (ora : Cosmos.StoreOracle) (s : Cosmos.MgrState) (cid : String)
    (dbid : Option String) (pk : String) (t : Thrown)
    (h : (Cosmos.getContainer ora s cid dbid pk).2 = Res.err t) :
    (Cosmos.getContainer ora s cid dbid pk).1.containerCache = s.containerCache ∧
    ((Cosmos.getContainer ora s cid dbid pk).1.databaseCache = s.databaseCache ∨
      ∃ p, (Cosmos.getContainer ora s cid dbid pk).1.databaseCache = p :: s.databaseCache) := by
  have hdb := getDatabase_cache_shape ora s dbid
  unfold Cosmos.getContainer at h ⊢
  cases hk : List.lookup (Cosmos.effectiveDbIdDisplay s dbid ++ "-" ++ cid) s.containerCache with
  | some hh =>
    simp only [hk] at h
    exact Res.noConfusion h
  | none =>
    rcases hget : Cosmos.getDatabase ora s dbid with ⟨s1, r⟩
    rw [hget] at hdb
    simp only [hk, hget] at h ⊢
    cases r with
    | err t1 => exact hdb
    | ok db =>
      cases hct : ora.ctCreate db.id cid pk with
      | ok u =>
        simp only [hct] at h
        exact Res.noConfusion h
      | err e =>
        simp only [hct] at h ⊢
        exact hdb

/-- C7 (counterexample): with database creation succeeding and container
creation failing, `getContainer` fails but the database cache has gained an
entry, so the two caches do not both hold exactly their prior entries. -/
theorem c7_counterexample :
    Cosmos.getContainer ctFailOracle mgrReady "widgets" none "/id" =
      ({ mgrReady with
           databaseCache := [("widgets-db", { id := "widgets-db" })]
           dbCreateLog := ["widgets-db"]
           ctCreateLog := [("widgets-db", "widgets", "/id")] },
        Res.err (Thrown.normalized
          { code := 503, message := "Service unavailable: CosmosDB is currently unavailable" })) ∧
    mgrReady.databaseCache = [] := by decide

/-- Witness for C7's amended statement on the failing concrete call. -/
theorem c7_amended_witness :
    (Cosmos.getContainer ctFailOracle mgrReady "widgets" none "/id").2 =
      Res.err (Thrown.normalized
        { code := 503, message := "Service unavailable: CosmosDB is currently unavailable" }) ∧
    ((Cosmos.getContainer ctFailOracle mgrReady "widgets" none "/id").1.containerCache =
        mgrReady.containerCache ∧
      ((Cosmos.getContainer ctFailOracle mgrReady "widgets" none "/id").1.databaseCache =
          mgrReady.databaseCache ∨
        ∃ p, (Cosmos.getContainer ctFailOracle mgrReady "widgets" none "/id").1.databaseCache =
          p :: mgrReady.databaseCache)) :=
  ⟨by decide,
    c7_amended ctFailOracle mgrReady "widgets" none "/id"
      (Thrown.normalized
        { code := 503, message := "Service unavailable: CosmosDB is currently unavailable" })
      (by decide)⟩

/-- Appending the empty string is the identity. -/
theorem str_append_empty (s : String) : s ++ "" = s := by
  cases s with
  | mk l => exact congrArg String.mk (List.append_nil l)

/-- `buildError` applied to a rethrown plain `Error` (as a `catch` block
sees it) ignores the error's own message and returns the default. -/
theorem buildError_rawThrown (m d : String) :
    Cosmos.buildError (some (thrownAsJs (Thrown.raw m))) d = { code := 500, message := d } := rfl

/-- `buildError` applied to a rethrown normalized `{500, m}` error keeps
code 500 and the nonempty message `m`, ignoring the default. -/
theorem buildError_normalized500 (m d : String) (hm : m ≠ "") :
    Cosmos.buildError (some (thrownAsJs (Thrown.normalized { code := 500, message := m }))) d =
      { code := 500, message := m } := by
  show ({ code := Cosmos.mapVendorCode 500,
          message := jsOrStr (some m) ((Cosmos.errorMap (Cosmos.mapVendorCode 500)).getD d) } :
      WidgetError) = _
  have h500 : Cosmos.mapVendorCode 500 = 500 := by decide
  rw [h500]
  show ({ code := 500, message := if m = "" then (Cosmos.errorMap 500).getD d else m } :
      WidgetError) = _
  rw [if_neg hm]

/-- C8 (counterexample): the `part_002` read handler returns the stored
document verbatim — the response carries the store metadata keys, not
exactly the three public keys. -/
theorem c8_counterexample :
    CtrlV1.read [docW1] "w1" =
      Res.ok { id := "w1", weight := 2, color := Color.red, ts := some 10, etag := some "e10" } ∧
    exactPublicKeys
      { id := "w1", weight := 2, color := Color.red, ts := some 10, etag := some "e10" } = false := by
  decide

/-- C8 (amended): the projections of `WidgetsCosmosImpl`, the second
`WidgetsCosmosController`, and `part_002` all produce exactly the three
public keys, and every successful `WidgetsCosmosImpl` response (and every
`part_002` `list` element) is so projected; but `part_002`'s `read` returns
the stored document verbatim, which always carries the metadata keys. -/
theorem c8_amended :
    (∀ d : RWidget, exactPublicKeys (Impl.documentToWidget d) = true) ∧
    (∀ d : RWidget, exactPublicKeys (CtrlV2.documentToWidget d) = true) ∧
    (∀ d : RWidget, exactPublicKeys (CtrlV1.documentToWidget d) = true) ∧
    (∀ (store : Store) (l : List RWidget), CtrlV1.list store = Res.ok l →
      ∀ r ∈ l, exactPublicKeys r = true) ∧
    (∀ (ora : CosmosTs.StoreOracle) (w : Impl.World) (id : String) (r : RWidget),
      (Impl.read ora w id).2 = Res.ok r → exactPublicKeys r = true) ∧
    (∀ (ora : CosmosTs.StoreOracle) (w : Impl.World) (id : String) (wt : Int) (col : Color)
      (r : RWidget),
      (Impl.create ora w id wt col).2 = Res.ok r → exactPublicKeys r = true) ∧
    (∀ (ora : CosmosTs.StoreOracle) (w : Impl.World) (l : List RWidget),
      (Impl.list ora w).2 = Res.ok l → ∀ r ∈ l, exactPublicKeys r = true) ∧
    (∀ (store : Store) (id : String) (d : StoredDoc),
      store.find? (fun x => x.id == id) = some d → CtrlV1.read store id = Res.ok (storedToObj d)) ∧
    (∀ d : StoredDoc, exactPublicKeys (storedToObj d) = false) := by
  refine ⟨fun d => rfl, fun d => rfl, fun d => rfl, ?_, ?_, ?_, ?_, ?_, fun d => rfl⟩
  · intro store l hl r hr
    unfold CtrlV1.list at hl
    injection hl with hl
    rw [← hl] at hr
    obtain ⟨x, _, hx⟩ := List.mem_map.mp hr
    rw [← hx]
    rfl
  · intro ora w id r h
    unfold Impl.read at h
    rcases hg : Impl.getContainerImpl ora w.ctrl with ⟨c1, rc⟩
    simp only [hg] at h
    cases rc with
    | err t => exact Res.noConfusion h
    | ok c =>
      cases hf : w.store.find? (fun d => d.id == id) with
      | none =>
        simp only [hf] at h
        exact Res.noConfusion h
      | some d =>
        simp only [hf] at h
        injection h with h
        rw [← h]
        rfl
  · intro ora w id wt col r h
    unfold Impl.create at h
    rcases hg : Impl.getContainerImpl ora w.ctrl with ⟨c1, rc⟩
    simp only [hg] at h
    cases rc with
    | err t => exact Res.noConfusion h
    | ok c =>
      by_cases hany : w.store.any (fun d => d.id == id) = true
      · simp only [hany, if_true] at h
        exact Res.noConfusion h
      · simp only [if_neg hany] at h
        injection h with h
        rw [← h]
        rfl
  · intro ora w l h r hr
    unfold Impl.list at h
    rcases hg : Impl.getContainerImpl ora w.ctrl with ⟨c1, rc⟩
    simp only [hg] at h
    cases rc with
    | err t => exact Res.noConfusion h
    | ok c =>
      injection h with h
      rw [← h] at hr
      obtain ⟨x, _, hx⟩ := List.mem_map.mp hr
      rw [← hx]
      rfl
  · intro store id d h
    unfold CtrlV1.read
    simp only [h]

/-- Witness for C8's amended statement on concrete data. -/
theorem c8_amended_witness :
    exactPublicKeys (Impl.documentToWidget (storedToObj docW1)) = true ∧
    CtrlV1.read [docW1] "w1" = Res.ok (storedToObj docW1) ∧
    exactPublicKeys (storedToObj docW1) = false := by
  refine ⟨c8_amended.1 (storedToObj docW1), ?_, c8_amended.2.2.2.2.2.2.2.2 docW1⟩
  exact c8_amended.2.2.2.2.2.2.2.1 [docW1] "w1" docW1 (by decide)

/-- C9 (counterexample): after the manager is disposed, a controller that
still holds its container reference happily serves `read` — it performs a
store operation and succeeds, instead of failing with a "not initialized"
error. -/
theorem c9_counterexample :
    v2Stale.ctrl.mgr.client = false ∧
    (CtrlV2.read allOkOracle v2Stale "w1").2 =
      Res.ok { id := "w1", weight := 2, color := Color.red, ts := none, etag := none } ∧
    (CtrlV2.read allOkOracle v2Stale "w1").1.opLog = ["read w1"] := by decide

/-- C9 (amended): `dispose` on an initialized manager clears both handle
caches and releases the client; `dispose` is idempotent and a no-op (never
failing) when never initialized; and a handler call after `dispose` fails
without performing any store operation only when the controller holds no
cached container — the failure is then the normalized `{500, "getContainer
Failed to get or create container <containerId>"}` (the underlying
not-initialized error message is swallowed by the normalizer), not a "not
initialized" message. -/
theorem c9_amended (s : CosmosAad.MgrState) :
    (s.client = true →
      (CosmosAad.dispose s).databaseCache = [] ∧ (CosmosAad.dispose s).containerCache = [] ∧
      (CosmosAad.dispose s).client = false) ∧
    CosmosAad.dispose (CosmosAad.dispose s) = CosmosAad.dispose s ∧
    (s.client = false → CosmosAad.dispose s = s) ∧
    (∀ (ora : Cosmos.StoreOracle) (w : CtrlV2.World) (id : String),
      w.ctrl.mgr.client = false → w.ctrl.mgr.containerCache = [] → w.ctrl.container = none →
      w.ctrl.databaseId ≠ "" → w.ctrl.containerId ≠ "" →
      (CtrlV2.read ora w id).2 =
        Res.err { code := 500
                  message := "getContainer Failed to get or create container " ++
                    w.ctrl.containerId } ∧
      (CtrlV2.read ora w id).1.opLog = w.opLog ∧
      (CtrlV2.read ora w id).1.store = w.store) := by
  refine ⟨?_, ?_, ?_, ?_⟩
  · intro h
    unfold CosmosAad.dispose
    rw [if_pos h]
    exact ⟨rfl, rfl, rfl⟩
  · by_cases h : s.client = true
    · unfold CosmosAad.dispose
      rw [if_pos h]
      rfl
    · unfold CosmosAad.dispose
      rw [if_neg h, if_neg h]
  · intro h
    unfold CosmosAad.dispose
    rw [if_neg (by simp [h])]
  · intro ora w id h1 h2 h3 hdb hct
    have hmsg : ("getContainer Failed to get or create container " ++ w.ctrl.containerId :
        String) ≠ "" :=
      string_append_ne_empty _ _ (by decide)
    have hgc : CosmosAad.getContainer ora w.ctrl.mgr w.ctrl.endpoint w.ctrl.databaseId
        w.ctrl.containerId w.ctrl.partitionKey =
        (w.ctrl.mgr, Res.err (Thrown.normalized
          { code := 500
            message := "getContainer Failed to get or create container " ++
              w.ctrl.containerId })) := by
      unfold CosmosAad.getContainer
      rw [if_neg hdb, if_neg hct]
      simp only [h2, List.lookup_nil]
      unfold CosmosAad.getDatabase
      simp only [h1, Bool.not_false, if_true]
      rw [buildError_rawThrown]
      have he : (toString "getContainer Failed to get or create container " ++
          toString w.ctrl.containerId ++ toString "" : String) =
          "getContainer Failed to get or create container " ++ w.ctrl.containerId :=
        str_append_empty _
      rw [he]
    have hbe : ∀ d : String,
        Cosmos.buildError (some (thrownAsJs (Thrown.normalized
          { code := 500
            message := "getContainer Failed to get or create container " ++
              w.ctrl.containerId }))) d =
        { code := 500
          message := "getContainer Failed to get or create container " ++
            w.ctrl.containerId } :=
      fun d => buildError_normalized500 _ d hmsg
    unfold CtrlV2.read CtrlV2.ensureContainer CtrlV2.resolveContainer
    simp only [h3, hgc, hbe]
    refine ⟨by simp, by simp, by simp⟩

/-- Witness for C9's amended statement on disposed concrete states. -/
theorem c9_amended_witness :
    aadWarm.client = true ∧
    (CosmosAad.dispose aadWarm).containerCache = [] ∧
    v2Cold.ctrl.mgr.client = false ∧
    (CtrlV2.read allOkOracle v2Cold "w1").2 =
      Res.err { code := 500
                message := "getContainer Failed to get or create container " ++
                  v2Cold.ctrl.containerId } := by
  refine ⟨rfl, ((c9_amended aadWarm).1 rfl).2.1, by decide, ?_⟩
  exact ((c9_amended aadWarm).2.2.2 allOkOracle v2Cold "w1" (by decide) (by decide) rfl
    (by decide) (by decide)).1
